import Mathlib

/-!
# Verification of the Equinix Metal docker-machine driver

A shallow embedding of `pkg/drivers/metal/metal.go` (the driver package).
External collaborators (the packngo HTTP client, the filesystem, SSH key
generation, `time.Sleep`, `drivers.WaitForSSH`) are modelled as oracle
environments: records of the results the external calls would return, so
the driver's control flow over those results is embedded exactly.
-/

namespace Metal

/-- A Go `error` value as the driver observes it.  The driver only ever
inspects an error by type-asserting it to `*packngo.ErrorResponse` and
reading `Response.StatusCode`.  `errorResponse (some c)` is an
`ErrorResponse` whose `Response` is non-nil with `StatusCode = c`;
`errorResponse none` is an `ErrorResponse` whose `Response` is nil;
`other` is any other non-nil error. -/
inductive GoError where
  | errorResponse (response : Option Nat)
  | other (msg : String)
deriving DecidableEq

/-- `ignoreStatusCodes` from metal.go: returns nil when `err` is an
`ErrorResponse` with a non-nil `Response` whose status code is among
`codes`, and returns `err` unchanged otherwise (including when `err` is
nil, is not an `ErrorResponse`, or has a nil `Response`). -/
def ignoreStatusCodes (err : Option GoError) (codes : List Nat) : Option GoError :=
  match err with
  | some (.errorResponse (some code)) =>
      if codes.contains code then none else err
  | _ => err

/-- `stringInSlice` from metal.go. -/
def stringInSlice (a : String) (list : List String) : Bool :=
  list.any (fun b => b == a)

/-- One entry of `packngo.Device.Network` (`packngo.IPAddressAssignment`);
only the fields the driver reads. -/
structure IPAddressAssignment where
  address : String
  public : Bool
  addressFamily : Nat
deriving DecidableEq

/-- A `packngo.Device`; only the fields the driver reads.
(`ProvisionPer` is read by `Create` solely for progress logging and does
not influence control flow, so it is omitted.) -/
structure Device where
  id : String
  state : String
  network : List IPAddressAssignment
deriving DecidableEq

/-- A `packngo.SSHKey`; the driver only reads `ID`. -/
structure SSHKey where
  id : String
deriving DecidableEq

/-- A `packngo.OperatingSystem`; only the fields `getOsFlavors` reads. -/
structure OperatingSystem where
  slug : String
  distro : String
deriving DecidableEq

/-- A `packngo.Facility`; only the `Code` field is read. -/
structure Facility where
  code : String
deriving DecidableEq

/-- A `packngo.Metro`; only the `Code` field is read. -/
structure Metro where
  code : String
deriving DecidableEq

/-- The driver record: the `Driver` struct of metal.go together with the
fields of the embedded `drivers.BaseDriver` that the driver code reads or
writes (`MachineName`, `IPAddress`, `SSHUser`).  `TerminationTime`
(`*packngo.Timestamp`) is modelled as an optional Unix-epoch second
count. -/
structure Driver where
  machineName : String
  ipAddress : String
  sshUser : String
  apiKey : String
  projectID : String
  plan : String
  hardwareReserverationID : String
  facility : String
  metro : String
  operatingSystem : String
  billingCycle : String
  deviceID : String
  userData : String
  tags : List String
  caCertPath : String
  sshKeyID : String
  userDataFile : String
  userAgentPrefix : String
  spotInstance : Bool
  spotPriceMax : Float
  terminationTime : Option Int

/-- `defaultMetro` from metal.go. -/
def defaultMetro : String := "dc"

/-- `defaultOS` from metal.go. -/
def defaultOS : String := "ubuntu_20_04"

/-- The `supportedDistros` list of `getOsFlavors`. -/
def supportedDistros : List String :=
  ["centos", "coreos", "debian", "opensuse", "rancher", "ubuntu"]

/-- The filtering step of `getOsFlavors`: keep the slugs of the operating
systems whose distro is in `supportedDistros`, in order. -/
def osFlavorsOf (operatingSystems : List OperatingSystem) : List String :=
  (operatingSystems.filter (fun flavor => stringInSlice flavor.distro supportedDistros)).map
    (fun flavor => flavor.slug)

/-- `validateFacility` from metal.go, with the result of
`client.Facilities.List` supplied as an oracle.  Returns `none` for nil
error. -/
def validateFacility (facilities : Except GoError (List Facility)) (facility : String) :
    Option GoError :=
  if facility == "any" then none
  else
    match facilities with
    | .error err => some err
    | .ok fs =>
        if fs.any (fun f => f.code == facility) then none
        else some (.other "metal requires a valid facility")

/-- `validateMetro` from metal.go, with the result of
`client.Metros.List` supplied as an oracle. -/
def validateMetro (metros : Except GoError (List Metro)) (metro : String) :
    Option GoError :=
  match metros with
  | .error err => some err
  | .ok ms =>
      if ms.any (fun m => m.code == metro) then none
      else some (.other "metal requires a valid metro")

/-- The external observations `PreCreateCheck` makes: whether `os.Stat`
on the user-data file reports not-exist, and the results of the three
list calls. -/
structure PreEnv where
  userDataFileNotExist : Bool
  operatingSystems : Except GoError (List OperatingSystem)
  facilities : Except GoError (List Facility)
  metros : Except GoError (List Metro)

/-- Outcome of `PreCreateCheck`: the (possibly mutated) driver plus the
returned error, if any. -/
inductive PreResult where
  | ok (d : Driver)
  | err (e : GoError) (d : Driver)

/-- The driver after a `PreResult`. -/
def PreResult.driver : PreResult → Driver
  | .ok d => d
  | .err _ d => d

/-- The tail of `PreCreateCheck` from the facility/metro exclusivity
check on (metal.go lines 295-305), applied to the driver after the metro
defaulting assignment. -/
def preCreateValidate (env : PreEnv) (d : Driver) : PreResult :=
  if d.metro != "" && d.facility != "" then
    .err (.other "facility and metro can not be used together") d
  else if d.metro != "" then
    match validateMetro env.metros d.metro with
    | none => .ok d
    | some e => .err e d
  else
    match validateFacility env.facilities d.facility with
    | none => .ok d
    | some e => .err e d

/-- `PreCreateCheck` from metal.go (lines 276-306): user-data file
existence check, OS flavor membership check, metro defaulting (the
`d.Metro = defaultMetro` assignment when both metro and facility are
empty), then `preCreateValidate`. -/
def preCreateCheck (env : PreEnv) (d : Driver) : PreResult :=
  if d.userDataFile != "" && env.userDataFileNotExist then
    .err (.other ("user-data file " ++ d.userDataFile ++ " could not be found")) d
  else
    match env.operatingSystems with
    | .error e => .err e d
    | .ok operatingSystems =>
        if !stringInSlice d.operatingSystem (osFlavorsOf operatingSystems) then
          .err (.other ("specified --metal-os not one of " ++
            String.intercalate ", " (osFlavorsOf operatingSystems))) d
        else
          preCreateValidate env
            (if d.metro == "" && d.facility == "" then { d with metro := defaultMetro } else d)

/-- The `packngo.DeviceCreateRequest` fields `Create` populates.  A Go
zero-value `Facility` (unset) is the empty list. -/
structure DeviceCreateRequest where
  hostname : String
  plan : String
  hardwareReservationID : String
  metro : String
  os : String
  billingCycle : String
  projectID : String
  userData : String
  tags : List String
  spotInstance : Bool
  spotPriceMax : Float
  terminationTime : Option Int
  facility : List String

/-- The request literal of `Create` (metal.go lines 327-351): the
`hardwareReservationId` local, the struct literal, then the conditional
`Facility` assignment. -/
def buildCreateRequest (d : Driver) (userdata : String) : DeviceCreateRequest :=
  let hardwareReservationId := if d.hardwareReserverationID != "" then d.hardwareReserverationID else ""
  let createRequest : DeviceCreateRequest :=
    { hostname := d.machineName
      plan := d.plan
      hardwareReservationID := hardwareReservationId
      metro := d.metro
      os := d.operatingSystem
      billingCycle := d.billingCycle
      projectID := d.projectID
      userData := userdata
      tags := d.tags
      spotInstance := d.spotInstance
      spotPriceMax := d.spotPriceMax
      terminationTime := d.terminationTime
      facility := [] }
  if d.facility != "" then { createRequest with facility := [d.facility] }
  else createRequest

/-- Externally visible actions of `Create`, in the order performed. -/
inductive Event where
  | readUserDataFile
  | sshKeyGen
  | devCreate (req : DeviceCreateRequest)
  | keyDelete
  | devGet
  | sleep (seconds : Nat)
  | waitSSH
  | devDelete

/-- The IP-scanning inner loop of `Create`'s first polling loop:
`for _, ip := range newDevice.Network { if ip.Public && ip.AddressFamily == 4 { d.IPAddress = ip.Address } }`.
`init` is `d.IPAddress` before the scan; the last matching entry wins. -/
def scanNetwork (init : String) (network : List IPAddressAssignment) : String :=
  network.foldl
    (fun ipAddress ip =>
      if ip.public && ip.addressFamily == 4 then ip.address else ipAddress)
    init

/-- How a polling loop ended. -/
inductive LoopExit where
  | broke
  | errExit (e : GoError)
  | fuelOut
deriving DecidableEq

/-- `Create`'s first polling loop (metal.go lines 368-385), fuelled.
`get n` is the result of the n-th `Devices.Get` call of `Create`; `k` is
the index of the next call; `ip` is the current `d.IPAddress`.  Returns
the final `d.IPAddress`, the next unused call index, how the loop ended,
and the trace (a `Devices.Get` each iteration, a 1-second sleep between
iterations). -/
def pollIP (get : Nat → Except GoError Device) :
    Nat → String → Nat → String × Nat × LoopExit × List Event
  | k, ip, 0 => (ip, k, .fuelOut, [])
  | k, ip, fuel + 1 =>
    match get k with
    | .error e => (ip, k + 1, .errExit e, [.devGet])
    | .ok newDevice =>
        let ip := scanNetwork ip newDevice.network
        if ip != "" then (ip, k + 1, .broke, [.devGet])
        else
          let r := pollIP get (k + 1) ip fuel
          (r.1, r.2.1, r.2.2.1, .devGet :: .sleep 1 :: r.2.2.2)

/-- `Create`'s second polling loop (metal.go lines 392-407), fuelled:
re-fetch until `newDevice.State == "active"`, sleeping 10 seconds between
iterations.  (The `ProvisionPer` progress logging inside the loop has no
effect on control flow and is omitted.) -/
def pollActive (get : Nat → Except GoError Device) :
    Nat → Nat → Nat × LoopExit × List Event
  | k, 0 => (k, .fuelOut, [])
  | k, fuel + 1 =>
    match get k with
    | .error e => (k + 1, .errExit e, [.devGet])
    | .ok newDevice =>
        if newDevice.state == "active" then (k + 1, .broke, [.devGet])
        else
          let r := pollActive get (k + 1) fuel
          (r.1, r.2.1, .devGet :: .sleep 10 :: r.2.2)

/-- The external observations `Create` makes, as oracle results:
the user-data file read, `createSSHKey` (key generation plus remote
registration, collapsed to its result), `Devices.Create`,
`SSHKeys.Delete` (the cleanup path), the stream of `Devices.Get`
results, and `drivers.WaitForSSH`. -/
structure CreateEnv where
  userDataRead : Except GoError String
  sshKeyCreate : Except GoError SSHKey
  deviceCreate : Except GoError Device
  sshKeyDelete : Option GoError
  devGets : Nat → Except GoError Device
  waitForSSH : Option GoError

/-- How `Create` ended.  `panicked` is the nil-pointer dereference Go
would hit in the cleanup path when the deletion error is an
`ErrorResponse` with a nil `Response` (metal.go line 358 reads
`er.Response.StatusCode` without a nil check). -/
inductive CreateOutcome where
  | ok
  | err (e : GoError)
  | fuelOut
  | panicked
deriving DecidableEq

/-- A run of `Create`: final driver record, outcome, trace of external
actions. -/
structure CreateRun where
  d : Driver
  outcome : CreateOutcome
  trace : List Event

/-- The outcome of `Create`'s SSH-key cleanup path (metal.go lines
355-362): the creation error `e` is returned when the deletion succeeds;
when the deletion fails, its error is returned unless it is an
`ErrorResponse` whose `Response.StatusCode` is 404.  A deletion
`ErrorResponse` with a nil `Response` makes the Go code dereference a
nil pointer (`er.Response.StatusCode` has no nil check there). -/
def cleanupOutcome (delete : Option GoError) (e : GoError) : CreateOutcome :=
  match delete with
  | none => .err e
  | some (.other m) => .err (.other m)
  | some (.errorResponse none) => .panicked
  | some (.errorResponse (some code)) =>
      if code != 404 then .err (.errorResponse (some code)) else .err e

/-- `Create` after a successful device submission (metal.go lines
364-416): poll for a public IPv4 address (recording it in `IPAddress`),
poll for the "active" state, then wait for SSH.  `d` already carries the
new device ID; `tr` is the trace so far. -/
def createPolling (env : CreateEnv) (fuel : Nat) (d : Driver) (tr : List Event) :
    CreateRun :=
  let r1 := pollIP env.devGets 0 d.ipAddress fuel
  let d := { d with ipAddress := r1.1 }
  let tr := tr ++ r1.2.2.2
  match r1.2.2.1 with
  | .fuelOut => ⟨d, .fuelOut, tr⟩
  | .errExit e => ⟨d, .err e, tr⟩
  | .broke =>
      let r2 := pollActive env.devGets r1.2.1 fuel
      let tr := tr ++ r2.2.2
      match r2.2.1 with
      | .fuelOut => ⟨d, .fuelOut, tr⟩
      | .errExit e => ⟨d, .err e, tr⟩
      | .broke =>
          match env.waitForSSH with
          | some e => ⟨d, .err e, tr ++ [.waitSSH]⟩
          | none => ⟨d, .ok, tr ++ [.waitSSH]⟩

/-- `Create` from the `log.Info("Creating SSH key...")` line on
(metal.go lines 318-416): create and register the SSH key (recording its
ID in `SSHKeyID`), build and submit the device-create request (on
failure, delete the just-created key: `cleanupOutcome`), record the
device ID, then `createPolling`.  `userdata` is the user-data string
read by the first step; `tr` the trace so far. -/
def createAfterUserData (env : CreateEnv) (fuel : Nat) (d : Driver) (userdata : String)
    (tr : List Event) : CreateRun :=
  match env.sshKeyCreate with
  | .error e => ⟨d, .err e, tr ++ [.sshKeyGen]⟩
  | .ok key =>
      let d := { d with sshKeyID := key.id }
      let createRequest := buildCreateRequest d userdata
      let tr := tr ++ [.sshKeyGen]
      match env.deviceCreate with
      | .error e =>
          ⟨d, cleanupOutcome env.sshKeyDelete e,
            tr ++ [.devCreate createRequest, .keyDelete]⟩
      | .ok newDevice =>
          createPolling env fuel { d with deviceID := newDevice.id }
            (tr ++ [.devCreate createRequest])

/-- `Create` from metal.go (lines 308-417), fuelled for the two polling
loops: read the user-data file when a path is set, then proceed with
`createAfterUserData`. -/
def create (env : CreateEnv) (fuel : Nat) (d : Driver) : CreateRun :=
  if d.userDataFile != "" then
    match env.userDataRead with
    | .error e => ⟨d, .err e, [.readUserDataFile]⟩
    | .ok userdata => createAfterUserData env fuel d userdata [.readUserDataFile]
  else createAfterUserData env fuel d "" []

/-- `GetIP` from metal.go: error when no IP address is stored, the
stored address otherwise. -/
def getIP (d : Driver) : Except GoError String :=
  if d.ipAddress == "" then .error (.other "IP address is not set")
  else .ok d.ipAddress

/-- `GetSSHHostname` from metal.go: `return d.GetIP()`. -/
def getSSHHostname (d : Driver) : Except GoError String :=
  getIP d

/-- `GetURL` from metal.go: `fmt.Sprintf("tcp://%s:2376", ip)` on
`GetIP` success, the `GetIP` error otherwise. -/
def getURL (d : Driver) : Except GoError String :=
  match getIP d with
  | .error err => .error err
  | .ok ip => .ok ("tcp://" ++ ip ++ ":2376")

/-- `libmachine/state.State`; the constants the driver uses. -/
inductive MachineState where
  | None
  | Running
  | Stopped
  | Stopping
  | Starting
  | Error
deriving DecidableEq

/-- `GetState` from metal.go, with the `Devices.Get` result supplied as
an oracle: the switch over `device.State`. -/
def getState (devGet : Except GoError Device) : MachineState × Option GoError :=
  match devGet with
  | .error err => (.Error, some err)
  | .ok device =>
      if device.state == "queued" || device.state == "provisioning"
          || device.state == "powering_on" then (.Starting, none)
      else if device.state == "active" then (.Running, none)
      else if device.state == "powering_off" then (.Stopping, none)
      else if device.state == "inactive" then (.Stopped, none)
      else (.None, none)

/-- The external observations `Remove` makes: the `SSHKeys.Delete` and
`Devices.Delete` results. -/
structure RemoveEnv where
  sshKeyDelete : Option GoError
  deviceDelete : Option GoError

/-- `Remove` from metal.go (lines 503-511): delete the SSH key, and
return its original error if `ignoreStatusCodes(err, 403, 404)` is
non-nil; otherwise delete the device and return
`ignoreStatusCodes(err, 403, 404)` of that result.  The trace records
which deletions were attempted. -/
def remove (env : RemoveEnv) : Option GoError × List Event :=
  if (ignoreStatusCodes env.sshKeyDelete [403, 404]).isSome then
    (env.sshKeyDelete, [.keyDelete])
  else
    (ignoreStatusCodes env.deviceDelete [403, 404], [.keyDelete, .devDelete])

/-- `metalSnakeConfig` from config.go: the YAML configuration file
shape.  Absent YAML keys unmarshal to Go zero values, i.e. empty
strings. -/
structure MetalSnakeConfig where
  token : String
  authToken : String
  facility : String
  metro : String
  os : String
  plan : String
  projectID : String

/-- What reading and unmarshalling the config file can yield:
the file is missing (`fs.ErrNotExist`), reading fails otherwise,
`yaml.Unmarshal` fails, or a config record is produced. -/
inductive ConfigFileRead where
  | missing
  | readErr (e : GoError)
  | unmarshalErr (e : GoError)
  | parsed (config : MetalSnakeConfig)

/-- `setConfigFromFile` from metal.go (lines 179-202): a missing file is
not an error and leaves the driver untouched; other read errors and
unmarshal errors are returned; otherwise the plan, API key (config
`token` taking precedence over `auth-token` when non-empty), facility,
metro, OS and project ID are copied from the file. -/
def setConfigFromFile (file : ConfigFileRead) (d : Driver) : Except GoError Driver :=
  match file with
  | .missing => .ok d
  | .readErr e => .error e
  | .unmarshalErr e => .error e
  | .parsed config =>
      let d := { d with plan := config.plan }
      let d := { d with apiKey := config.authToken }
      let d := if config.token != "" then { d with apiKey := config.token } else d
      .ok { d with
              facility := config.facility
              metro := config.metro
              operatingSystem := config.os
              projectID := config.projectID }

/-- The `drivers.DriverOptions` values `SetConfigFromFlags` reads (each
`flags.String`/`flags.Bool` lookup). -/
structure Flags where
  os : String
  apiKey : String
  projectId : String
  metroCode : String
  facilityCode : String
  plan : String
  billingCycle : String
  uaPrefix : String
  userdata : String
  hwReservationId : String
  spotInstance : Bool
  spotPriceMax : String
  terminationTime : String

/-- The external results `SetConfigFromFlags` depends on beside the
flags: the config file read, the `strconv.ParseFloat` oracle, the
`strtotime.Parse` oracle and the current Unix time (the two
`time.Now()` calls of the termination-time branch are collapsed to one
instant). -/
structure FlagsEnv where
  file : ConfigFileRead
  parseFloat : String → Except GoError Float
  strtotime : String → Int → Except GoError Int
  now : Int

/-- Whether `sub` occurs at the start of `s` (on character lists). -/
def startsWithChars : List Char → List Char → Bool
  | [], _ => true
  | _ :: _, [] => false
  | a :: sub, b :: s => a == b && startsWithChars sub s

/-- Whether `sub` occurs contiguously anywhere in `s`. -/
def containsChars (sub : List Char) : List Char → Bool
  | [] => startsWithChars sub []
  | c :: s => startsWithChars sub (c :: s) || containsChars sub s

/-- `strings.Contains`. -/
def goContains (s sub : String) : Bool :=
  containsChars sub.data s.data

/-- The spot-instance block of `SetConfigFromFlags` (metal.go lines
235-260): parse the max spot price (defaulting to -1 when the flag is
empty) and the termination time (rejecting past instants). -/
def applySpotFlags (env : FlagsEnv) (flags : Flags) (d : Driver) : Except GoError Driver :=
  if d.spotInstance then
    match
      (if flags.spotPriceMax == "" then .ok { d with spotPriceMax := -1 }
       else
         match env.parseFloat flags.spotPriceMax with
         | .error e => .error e
         | .ok v => .ok { d with spotPriceMax := v } : Except GoError Driver) with
    | .error e => .error e
    | .ok d =>
        if flags.terminationTime == "" then .ok { d with terminationTime := none }
        else
          match env.strtotime flags.terminationTime env.now with
          | .error e => .error e
          | .ok timestamp =>
              if timestamp ≤ env.now then
                .error (.other "--metal-termination-time cannot be in the past")
              else .ok { d with terminationTime := some timestamp }
  else .ok d

/-- `SetConfigFromFlags` from metal.go (lines 204-270): load the config
file, override the six file-backed fields with non-empty command-line
values (the Go `map` iteration order is immaterial since each entry
writes a distinct field), derive the SSH user from the OS name, copy the
remaining flags, handle the spot-instance block, then require a
non-empty API key and project ID. -/
def setConfigFromFlags (env : FlagsEnv) (flags : Flags) (d : Driver) :
    Except GoError Driver :=
  match setConfigFromFile env.file d with
  | .error e => .error e
  | .ok d =>
      let d := if flags.os != "" then { d with operatingSystem := flags.os } else d
      let d := if flags.apiKey != "" then { d with apiKey := flags.apiKey } else d
      let d := if flags.projectId != "" then { d with projectID := flags.projectId } else d
      let d := if flags.metroCode != "" then { d with metro := flags.metroCode } else d
      let d := if flags.facilityCode != "" then { d with facility := flags.facilityCode } else d
      let d := if flags.plan != "" then { d with plan := flags.plan } else d
      let d := if goContains d.operatingSystem "coreos" then { d with sshUser := "core" } else d
      let d := if goContains d.operatingSystem "rancher" then { d with sshUser := "rancher" } else d
      let d := { d with
                   billingCycle := flags.billingCycle
                   userAgentPrefix := flags.uaPrefix
                   userDataFile := flags.userdata
                   hardwareReserverationID := flags.hwReservationId
                   spotInstance := flags.spotInstance }
      match applySpotFlags env flags d with
      | .error e => .error e
      | .ok d =>
          if d.apiKey == "" then
            .error (.other "metal driver requires the --metal-api-key option")
          else if d.projectID == "" then
            .error (.other "metal driver requires the --metal-project-id option")
          else .ok d

/-! ## Helper lemmas and sample values -/

/-- A configured driver record, used to instantiate theorems with
hypotheses at concrete inputs. -/
def sampleDriver : Driver :=
  { machineName := "test-machine"
    ipAddress := ""
    sshUser := ""
    apiKey := "APIKEY"
    projectID := "PROJECT"
    plan := "c3.small.x86"
    hardwareReserverationID := ""
    facility := ""
    metro := "dc"
    operatingSystem := "ubuntu_20_04"
    billingCycle := "hourly"
    deviceID := ""
    userData := ""
    tags := []
    caCertPath := ""
    sshKeyID := ""
    userDataFile := ""
    userAgentPrefix := ""
    spotInstance := false
    spotPriceMax := 0
    terminationTime := none }

/-- An error outcome the driver treats as ignorable in `Remove`:
the call succeeded, or failed with an HTTP 403 or 404 `ErrorResponse`. -/
def Ignorable (e : Option GoError) : Prop :=
  e = none ∨ e = some (.errorResponse (some 403)) ∨ e = some (.errorResponse (some 404))

/-- A `Devices.Get` oracle whose device is active with a public IPv4
address, used to instantiate the polling theorems. -/
def activeGets : Nat → Except GoError Device :=
  fun _ => .ok ⟨"device-1", "active", [⟨"147.28.1.1", true, 4⟩]⟩

/-- A `Create` environment in which every external call succeeds. -/
def happyEnv : CreateEnv :=
  { userDataRead := .ok ""
    sshKeyCreate := .ok ⟨"key-1"⟩
    deviceCreate := .ok ⟨"device-1", "provisioning", []⟩
    sshKeyDelete := none
    devGets := activeGets
    waitForSSH := none }

/-- A `Create` environment in which the device-create call fails and the
SSH-key cleanup deletion fails with an HTTP 403 response. -/
def cleanup403Env : CreateEnv :=
  { happyEnv with
      deviceCreate := .error (.other "device could not be created")
      sshKeyDelete := some (.errorResponse (some 403)) }

/-- A `Create` environment in which the device-create call fails and the
SSH-key cleanup deletion succeeds. -/
def cleanupOkEnv : CreateEnv :=
  { happyEnv with
      deviceCreate := .error (.other "device could not be created")
      sshKeyDelete := none }

/-- A `Create` environment in which the device-create call fails and the
SSH-key cleanup deletion fails with an error that is not an
`ErrorResponse`. -/
def cleanupOtherErrEnv : CreateEnv :=
  { happyEnv with
      deviceCreate := .error (.other "no capacity")
      sshKeyDelete := some (.other "delete exploded") }

/-- Command-line flags supplying only the API key and project ID. -/
def flagsW : Flags :=
  { os := ""
    apiKey := "APIKEY"
    projectId := "PROJECT"
    metroCode := ""
    facilityCode := ""
    plan := ""
    billingCycle := "hourly"
    uaPrefix := ""
    userdata := ""
    hwReservationId := ""
    spotInstance := false
    spotPriceMax := ""
    terminationTime := "" }

/-- A flags environment with no config file present. -/
def flagsEnvW : FlagsEnv :=
  { file := .missing
    parseFloat := fun _ => .error (.other "bad float")
    strtotime := fun _ _ => .error (.other "bad time")
    now := 0 }

theorem contains_codes (code : Nat) :
    [403, 404].contains code = (code == 403 || code == 404) := by
  by_cases h3 : code = 403
  · subst h3; rfl
  · by_cases h4 : code = 404
    · subst h4; rfl
    · simp [List.contains, List.elem, beq_eq_false_iff_ne.2 h3,
        beq_eq_false_iff_ne.2 h4]

theorem ignoreStatusCodes_eq_none_iff (e : Option GoError) :
    ignoreStatusCodes e [403, 404] = none ↔ Ignorable e := by
  constructor
  · intro h
    rcases e with _ | er
    · exact Or.inl rfl
    · rcases er with resp | m
      · rcases resp with _ | code
        · exact absurd h (by simp [ignoreStatusCodes])
        · simp only [ignoreStatusCodes, contains_codes] at h
          by_cases h3 : code = 403
          · exact Or.inr (Or.inl (by rw [h3]))
          · by_cases h4 : code = 404
            · exact Or.inr (Or.inr (by rw [h4]))
            · rw [beq_eq_false_iff_ne.2 h3, beq_eq_false_iff_ne.2 h4] at h
              simp at h
      · exact absurd h (by simp [ignoreStatusCodes])
  · rintro (h | h | h) <;> subst h <;> rfl

/-! ## C3: GetState mapping -/

/-- C3: `GetState` maps "queued", "provisioning" and "powering_on" to
`Starting`; "active" to `Running`; "powering_off" to `Stopping`;
"inactive" to `Stopped`; any other state string to `state.None`; and a
`Devices.Get` failure to the `Error` status together with the error. -/
theorem C3_getState_mapping :
    (∀ e : GoError, getState (.error e) = (.Error, some e)) ∧
    (∀ device : Device,
      (device.state ∈ (["queued", "provisioning", "powering_on"] : List String) →
        getState (.ok device) = (.Starting, none)) ∧
      (device.state = "active" → getState (.ok device) = (.Running, none)) ∧
      (device.state = "powering_off" → getState (.ok device) = (.Stopping, none)) ∧
      (device.state = "inactive" → getState (.ok device) = (.Stopped, none)) ∧
      (device.state ∉
          (["queued", "provisioning", "powering_on", "active", "powering_off",
            "inactive"] : List String) →
        getState (.ok device) = (.None, none))) := by
  refine ⟨fun e => rfl, fun device => ⟨?_, ?_, ?_, ?_, ?_⟩⟩
  · intro h
    simp only [List.mem_cons, List.mem_singleton, List.not_mem_nil, or_false] at h
    rcases h with h | h | h <;> simp [getState, h]
  · intro h; simp [getState, h]
  · intro h; simp [getState, h]
  · intro h; simp [getState, h]
  · intro h
    simp only [List.mem_cons, List.mem_singleton, List.not_mem_nil, or_false,
      not_or] at h
    obtain ⟨h1, h2, h3, h4, h5, h6⟩ := h
    simp [getState, h1, h2, h3, h4, h5, h6]

/-- C3 witness: concrete instances of the mapping. -/
theorem C3_witness :
    getState (.ok ⟨"dev", "queued", []⟩) = (.Starting, none) ∧
    getState (.ok ⟨"dev", "rebooting", []⟩) = (.None, none) :=
  ⟨(C3_getState_mapping.2 ⟨"dev", "queued", []⟩).1 (by decide),
   (C3_getState_mapping.2 ⟨"dev", "rebooting", []⟩).2.2.2.2 (by decide)⟩

/-! ## C10: GetIP, GetSSHHostname, GetURL -/

/-- C10: `GetIP` errors exactly when the stored IP address is empty and
otherwise returns it unchanged; `GetSSHHostname` returns the same result
as `GetIP`; `GetURL` wraps the IP in "tcp://…:2376" exactly when `GetIP`
succeeds, and propagates the `GetIP` error otherwise. -/
theorem C10_ip_accessors (d : Driver) :
    ((∃ e, getIP d = .error e) ↔ d.ipAddress = "") ∧
    (d.ipAddress ≠ "" → getIP d = .ok d.ipAddress) ∧
    getSSHHostname d = getIP d ∧
    (d.ipAddress ≠ "" → getURL d = .ok ("tcp://" ++ d.ipAddress ++ ":2376")) ∧
    (∀ e, getIP d = .error e → getURL d = .error e) := by
  by_cases h : d.ipAddress = ""
  · refine ⟨⟨fun _ => h, fun _ => ⟨.other "IP address is not set", by simp [getIP, h]⟩⟩,
      fun hn => absurd h hn, rfl, fun hn => absurd h hn, fun e he => ?_⟩
    have he' : GoError.other "IP address is not set" = e := by
      have hgc : (Except.error (GoError.other "IP address is not set") :
          Except GoError String) = .error e := by
        rw [← he]; simp [getIP, h]
      exact (Except.error.injEq _ _).mp hgc
    subst he'
    simp [getURL, getIP, h]
  · refine ⟨⟨?_, fun hc => absurd hc h⟩, fun _ => by simp [getIP, h], rfl,
      fun _ => by simp [getURL, getIP, h], fun e he => ?_⟩
    · rintro ⟨e, he⟩
      simp [getIP, h] at he
    · simp [getIP, h] at he

/-- C10 witness: the accessors at a driver with an assigned address. -/
theorem C10_witness :
    getIP { sampleDriver with ipAddress := "147.28.1.1" } =
      .ok "147.28.1.1" ∧
    getURL { sampleDriver with ipAddress := "147.28.1.1" } =
      .ok "tcp://147.28.1.1:2376" :=
  ⟨(C10_ip_accessors { sampleDriver with ipAddress := "147.28.1.1" }).2.1 (by decide),
   (C10_ip_accessors { sampleDriver with ipAddress := "147.28.1.1" }).2.2.2.1 (by decide)⟩

/-! ## C6: Remove -/

/-- C6: `Remove` deletes the stored SSH key and then the device,
returning nil whenever each deletion succeeds or fails with HTTP 403 or
404; a non-ignorable SSH-key deletion error is returned without
attempting the device deletion, and a non-ignorable device deletion
error is returned. -/
theorem C6_remove (env : RemoveEnv) :
    (Ignorable env.sshKeyDelete → Ignorable env.deviceDelete →
      remove env = (none, [.keyDelete, .devDelete])) ∧
    (¬ Ignorable env.sshKeyDelete →
      remove env = (env.sshKeyDelete, [.keyDelete])) ∧
    (Ignorable env.sshKeyDelete → ¬ Ignorable env.deviceDelete →
      remove env = (env.deviceDelete, [.keyDelete, .devDelete])) := by
  refine ⟨fun h1 h2 => ?_, fun h1 => ?_, fun h1 h2 => ?_⟩
  · rw [remove, if_neg (by simp [(ignoreStatusCodes_eq_none_iff _).2 h1]),
      (ignoreStatusCodes_eq_none_iff _).2 h2]
  · have hs : (ignoreStatusCodes env.sshKeyDelete [403, 404]).isSome = true :=
      Option.ne_none_iff_isSome.mp
        (fun hc => h1 ((ignoreStatusCodes_eq_none_iff _).1 hc))
    rw [remove, if_pos hs]
  · rw [remove, if_neg (by simp [(ignoreStatusCodes_eq_none_iff _).2 h1])]
    have hd : ignoreStatusCodes env.deviceDelete [403, 404] = env.deviceDelete := by
      rcases hdd : env.deviceDelete with _ | er
      · rfl
      · rcases er with resp | m
        · rcases resp with _ | code
          · rfl
          · have h3 : code ≠ 403 := fun hc => h2 (Or.inr (Or.inl (by rw [hdd, hc])))
            have h4 : code ≠ 404 := fun hc => h2 (Or.inr (Or.inr (by rw [hdd, hc])))
            simp only [ignoreStatusCodes, contains_codes, beq_eq_false_iff_ne.2 h3,
              beq_eq_false_iff_ne.2 h4, Bool.or_false, Bool.false_eq_true,
              if_false]
        · rfl
    rw [hd]

/-- C6 witness: an ignorable key deletion (403) followed by a
non-ignorable device deletion error. -/
theorem C6_witness :
    remove { sshKeyDelete := some (.errorResponse (some 403)),
             deviceDelete := some (.other "boom") } =
      (some (.other "boom"), [.keyDelete, .devDelete]) :=
  (C6_remove _).2.2 (Or.inr (Or.inl rfl)) (by rintro (h | h | h) <;> simp_all [Ignorable])

/-! ## C4: PreCreateCheck -/

theorem validateMetro_eq_none (metros : Except GoError (List Metro)) (metro : String)
    (h : validateMetro metros metro = none) :
    ∃ ms, metros = .ok ms ∧ ms.any (fun m => m.code == metro) = true := by
  unfold validateMetro at h
  split at h
  · cases h
  · rename_i ms
    split at h
    · rename_i hany
      exact ⟨ms, rfl, hany⟩
    · cases h

theorem validateFacility_eq_none (facilities : Except GoError (List Facility))
    (facility : String) (h : validateFacility facilities facility = none) :
    facility = "any" ∨
      ∃ fs, facilities = .ok fs ∧ fs.any (fun f => f.code == facility) = true := by
  unfold validateFacility at h
  split at h
  · rename_i ha
    exact Or.inl (eq_of_beq ha)
  · right
    split at h
    · cases h
    · rename_i fs
      split at h
      · rename_i hany
        exact ⟨fs, rfl, hany⟩
      · cases h

theorem preCreateValidate_ok (env : PreEnv) (d d' : Driver)
    (h : preCreateValidate env d = .ok d') :
    d' = d ∧ ¬(d.metro ≠ "" ∧ d.facility ≠ "") ∧
    (d.metro ≠ "" → validateMetro env.metros d.metro = none) ∧
    (d.metro = "" → validateFacility env.facilities d.facility = none) := by
  unfold preCreateValidate at h
  split at h
  · cases h
  · rename_i hboth
    split at h
    · rename_i hm
      split at h
      · rename_i hv
        cases h
        refine ⟨rfl, ?_, fun _ => hv, fun hme => ?_⟩
        · rintro ⟨hm', hf'⟩
          exact hboth (by simp [bne_iff_ne, hm', hf'])
        · exact absurd hme (by simpa [bne_iff_ne] using hm)
      · cases h
    · rename_i hm
      have hme : d.metro = "" := by simpa using hm
      split at h
      · rename_i hv
        cases h
        exact ⟨rfl, fun hc => hc.1 hme, fun hc => absurd hme hc, fun _ => hv⟩
      · cases h

theorem preCreateCheck_ok_shape (env : PreEnv) (d d' : Driver)
    (h : preCreateCheck env d = .ok d') :
    d' = (if d.metro == "" && d.facility == "" then { d with metro := defaultMetro }
          else d) ∧
    ¬(d'.metro ≠ "" ∧ d'.facility ≠ "") ∧
    (d'.metro ≠ "" → validateMetro env.metros d'.metro = none) ∧
    (d'.metro = "" → validateFacility env.facilities d'.facility = none) := by
  unfold preCreateCheck at h
  split at h
  · cases h
  · split at h
    · cases h
    · split at h
      · cases h
      · obtain ⟨h1, h2, h3, h4⟩ := preCreateValidate_ok env _ d' h
        subst h1
        exact ⟨rfl, h2, h3, h4⟩

theorem preCreateCheck_ok_location (env : PreEnv) (d d' : Driver)
    (h : preCreateCheck env d = .ok d') :
    (d'.facility = "" ∧ d'.metro ≠ "") ∨ (d'.facility ≠ "" ∧ d'.metro = "") := by
  obtain ⟨hshape, hboth, -, -⟩ := preCreateCheck_ok_shape env d d' h
  by_cases hde : (d.metro == "" && d.facility == "") = true
  · rw [if_pos hde] at hshape
    subst hshape
    have hde' := (Bool.and_eq_true _ _).mp hde
    exact Or.inl ⟨eq_of_beq hde'.2, by show defaultMetro ≠ ""; decide⟩
  · rw [if_neg hde] at hshape
    rw [hshape] at hboth ⊢
    by_cases hm : d.metro = ""
    · have hf : d.facility ≠ "" := fun hf => hde (by simp [hm, hf])
      exact Or.inr ⟨hf, hm⟩
    · have hf : d.facility = "" := by
        by_contra hf
        exact hboth ⟨hm, hf⟩
      exact Or.inl ⟨hf, hm⟩

/-- C4: `PreCreateCheck` errors when a user-data path is set but the
file does not exist, when the configured OS is not among the supported
flavors, and when facility and metro are both non-empty; when both are
empty it first defaults the metro to "dc"; after success exactly one of
facility and metro is non-empty, a non-empty metro has been found in the
provider's metro list, and a non-empty facility is "any" (accepted
without lookup) or has been found in the provider's facility list. -/
theorem C4_preCreateCheck (env : PreEnv) (d : Driver) :
    (d.userDataFile ≠ "" → env.userDataFileNotExist = true →
      ∃ e d0, preCreateCheck env d = .err e d0) ∧
    (∀ oss, env.operatingSystems = .ok oss →
      stringInSlice d.operatingSystem (osFlavorsOf oss) = false →
      ∃ e d0, preCreateCheck env d = .err e d0) ∧
    (d.facility ≠ "" → d.metro ≠ "" →
      ∃ e d0, preCreateCheck env d = .err e d0) ∧
    (∀ fac, validateFacility fac "any" = none) ∧
    (∀ d', preCreateCheck env d = .ok d' →
      ((d'.facility = "" ∧ d'.metro ≠ "") ∨ (d'.facility ≠ "" ∧ d'.metro = "")) ∧
      (d.facility = "" → d.metro = "" → d'.metro = defaultMetro) ∧
      (d'.metro ≠ "" →
        ∃ ms, env.metros = .ok ms ∧ ms.any (fun m => m.code == d'.metro) = true) ∧
      (d'.facility ≠ "" → d'.facility = "any" ∨
        ∃ fs, env.facilities = .ok fs ∧
          fs.any (fun f => f.code == d'.facility) = true)) := by
  refine ⟨fun hu hne => ?_, fun oss hoss hsl => ?_, fun hf hm => ?_, fun fac => rfl,
    fun d' h => ?_⟩
  · refine ⟨.other ("user-data file " ++ d.userDataFile ++ " could not be found"), d, ?_⟩
    unfold preCreateCheck
    rw [if_pos (by simp [hu, hne])]
  · rcases hr : preCreateCheck env d with d0 | ⟨e, d0⟩
    · exfalso
      unfold preCreateCheck at hr
      split at hr
      · cases hr
      · split at hr
        · cases hr
        · rename_i oss' hoss'
          rw [hoss] at hoss'
          injection hoss' with hoss'
          subst hoss'
          split at hr
          · cases hr
          · rename_i hc
            rw [hsl] at hc
            exact hc rfl
    · exact ⟨e, d0, rfl⟩
  · rcases hr : preCreateCheck env d with d0 | ⟨e, d0⟩
    · exfalso
      obtain ⟨hshape, hboth, -, -⟩ := preCreateCheck_ok_shape env d d0 hr
      rw [if_neg (by simp [hm])] at hshape
      subst hshape
      exact hboth ⟨hm, hf⟩
    · exact ⟨e, d0, rfl⟩
  · obtain ⟨hshape, hboth, hvm, hvf⟩ := preCreateCheck_ok_shape env d d' h
    refine ⟨preCreateCheck_ok_location env d d' h, fun hf hm => ?_, fun hm => ?_,
      fun hf => ?_⟩
    · rw [if_pos (by simp [hm, hf])] at hshape
      subst hshape
      rfl
    · exact validateMetro_eq_none _ _ (hvm hm)
    · rcases preCreateCheck_ok_location env d d' h with ⟨hf', -⟩ | ⟨-, hm'⟩
      · exact absurd hf' hf
      · exact validateFacility_eq_none _ _ (hvf hm')

/-- C4 witness: a driver with empty facility and metro passes with the
metro defaulted to "dc" and validated against the metro list. -/
theorem C4_witness :
    ∃ d', preCreateCheck
        { userDataFileNotExist := false
          operatingSystems := .ok [⟨"ubuntu_20_04", "ubuntu"⟩]
          facilities := .ok []
          metros := .ok [⟨"dc"⟩] }
        { sampleDriver with metro := "" } = .ok d' ∧
      d'.metro = defaultMetro := by
  have h : preCreateCheck
      { userDataFileNotExist := false
        operatingSystems := .ok [⟨"ubuntu_20_04", "ubuntu"⟩]
        facilities := .ok []
        metros := .ok [⟨"dc"⟩] }
      { sampleDriver with metro := "" } =
      .ok { sampleDriver with metro := defaultMetro } := rfl
  exact ⟨_, h, ((C4_preCreateCheck _ _).2.2.2.2 _ h).2.1 rfl rfl⟩

/-! ## C7: device-create request addressing -/

theorem pollIP_trace_events (get : Nat → Except GoError Device) :
    ∀ (fuel k : Nat) (ip : String) (ev : Event),
      ev ∈ (pollIP get k ip fuel).2.2.2 → ev = .devGet ∨ ev = .sleep 1 := by
  intro fuel
  induction fuel with
  | zero => intro k ip ev hev; simp [pollIP] at hev
  | succ fuel ih =>
      intro k ip ev hev
      simp only [pollIP] at hev
      split at hev
      · simp only [List.mem_singleton] at hev
        exact Or.inl hev
      · split at hev
        · simp only [List.mem_singleton] at hev
          exact Or.inl hev
        · simp only [List.mem_cons] at hev
          rcases hev with rfl | rfl | hev
          · exact Or.inl rfl
          · exact Or.inr rfl
          · exact ih _ _ _ hev

theorem pollActive_trace_events (get : Nat → Except GoError Device) :
    ∀ (fuel k : Nat) (ev : Event),
      ev ∈ (pollActive get k fuel).2.2 → ev = .devGet ∨ ev = .sleep 10 := by
  intro fuel
  induction fuel with
  | zero => intro k ev hev; simp [pollActive] at hev
  | succ fuel ih =>
      intro k ev hev
      simp only [pollActive] at hev
      split at hev
      · simp only [List.mem_singleton] at hev
        exact Or.inl hev
      · split at hev
        · simp only [List.mem_singleton] at hev
          exact Or.inl hev
        · simp only [List.mem_cons] at hev
          rcases hev with rfl | rfl | hev
          · exact Or.inl rfl
          · exact Or.inr rfl
          · exact ih _ _ hev

theorem createPolling_trace_events (env : CreateEnv) (fuel : Nat) (d : Driver)
    (tr : List Event) (ev : Event)
    (hmem : ev ∈ (createPolling env fuel d tr).trace) :
    ev ∈ tr ∨ ev = .devGet ∨ ev = .sleep 1 ∨ ev = .sleep 10 ∨ ev = .waitSSH := by
  unfold createPolling at hmem
  try dsimp only at hmem
  split at hmem
  · try dsimp only at hmem
    simp only [List.mem_append] at hmem
    rcases hmem with hmem | hmem
    · exact Or.inl hmem
    · rcases pollIP_trace_events env.devGets _ _ _ _ hmem with h | h
      · exact Or.inr (Or.inl h)
      · exact Or.inr (Or.inr (Or.inl h))
  · try dsimp only at hmem
    simp only [List.mem_append] at hmem
    rcases hmem with hmem | hmem
    · exact Or.inl hmem
    · rcases pollIP_trace_events env.devGets _ _ _ _ hmem with h | h
      · exact Or.inr (Or.inl h)
      · exact Or.inr (Or.inr (Or.inl h))
  · split at hmem
    · try dsimp only at hmem
      simp only [List.mem_append] at hmem
      rcases hmem with (hmem | hmem) | hmem
      · exact Or.inl hmem
      · rcases pollIP_trace_events env.devGets _ _ _ _ hmem with h | h
        · exact Or.inr (Or.inl h)
        · exact Or.inr (Or.inr (Or.inl h))
      · rcases pollActive_trace_events env.devGets _ _ _ hmem with h | h
        · exact Or.inr (Or.inl h)
        · exact Or.inr (Or.inr (Or.inr (Or.inl h)))
    · try dsimp only at hmem
      simp only [List.mem_append] at hmem
      rcases hmem with (hmem | hmem) | hmem
      · exact Or.inl hmem
      · rcases pollIP_trace_events env.devGets _ _ _ _ hmem with h | h
        · exact Or.inr (Or.inl h)
        · exact Or.inr (Or.inr (Or.inl h))
      · rcases pollActive_trace_events env.devGets _ _ _ hmem with h | h
        · exact Or.inr (Or.inl h)
        · exact Or.inr (Or.inr (Or.inr (Or.inl h)))
    · split at hmem <;>
      · try dsimp only at hmem
        simp only [List.mem_append, List.mem_singleton] at hmem
        rcases hmem with ((hmem | hmem) | hmem) | hmem
        · exact Or.inl hmem
        · rcases pollIP_trace_events env.devGets _ _ _ _ hmem with h | h
          · exact Or.inr (Or.inl h)
          · exact Or.inr (Or.inr (Or.inl h))
        · rcases pollActive_trace_events env.devGets _ _ _ hmem with h | h
          · exact Or.inr (Or.inl h)
          · exact Or.inr (Or.inr (Or.inr (Or.inl h)))
        · exact Or.inr (Or.inr (Or.inr (Or.inr hmem)))

theorem createAfterUserData_devCreate (env : CreateEnv) (fuel : Nat) (d : Driver)
    (userdata : String) (tr : List Event) (req : DeviceCreateRequest)
    (htr : ∀ ev ∈ tr, ev = Event.readUserDataFile)
    (hmem : Event.devCreate req ∈ (createAfterUserData env fuel d userdata tr).trace) :
    ∃ key, env.sshKeyCreate = .ok key ∧
      req = buildCreateRequest { d with sshKeyID := key.id } userdata := by
  unfold createAfterUserData at hmem
  split at hmem
  · try dsimp only at hmem
    simp only [List.mem_append, List.mem_singleton] at hmem
    rcases hmem with hmem | hmem
    · cases htr _ hmem
    · cases hmem
  · rename_i key hkey
    refine ⟨key, hkey, ?_⟩
    try dsimp only at hmem
    split at hmem
    · -- device creation failed: the trace ends with devCreate and keyDelete
      try dsimp only at hmem
      simp only [List.mem_append, List.mem_cons, List.mem_singleton,
        List.not_mem_nil, or_false] at hmem
      rcases hmem with (hmem | hmem) | hmem | hmem
      · cases htr _ hmem
      · cases hmem
      · exact (Event.devCreate.injEq _ _).mp hmem
      · cases hmem
    · -- device creation succeeded: the rest is polling and SSH-wait events
      rcases createPolling_trace_events env fuel _ _ _ hmem with hmem | h | h | h | h
      · simp only [List.mem_append, List.mem_singleton] at hmem
        rcases hmem with (hmem | hmem) | hmem
        · cases htr _ hmem
        · cases hmem
        · exact (Event.devCreate.injEq _ _).mp hmem
      · cases h
      · cases h
      · cases h
      · cases h


theorem buildCreateRequest_metro (d : Driver) (userdata : String) :
    (buildCreateRequest d userdata).metro = d.metro := by
  unfold buildCreateRequest
  split <;> split <;> rfl

theorem buildCreateRequest_facility (d : Driver) (userdata : String) :
    (buildCreateRequest d userdata).facility =
      (if d.facility = "" then [] else [d.facility]) := by
  unfold buildCreateRequest
  by_cases h : d.facility = "" <;> simp [h]

/-- C7: the device-create request always carries the driver's metro in
its `Metro` field and carries `Facility` as the one-element list of the
driver's facility exactly when that is non-empty (and leaves it unset
otherwise) — both for `buildCreateRequest` itself and for every request
appearing in a `Create` trace; consequently, for a driver that passed
`PreCreateCheck`, at most one of the request's facility and metro
addressings is populated. -/
theorem C7_request_addressing (d : Driver) (userdata : String) :
    (buildCreateRequest d userdata).metro = d.metro ∧
    (buildCreateRequest d userdata).facility =
      (if d.facility = "" then [] else [d.facility]) ∧
    (∀ env fuel req, Event.devCreate req ∈ (create env fuel d).trace →
      req.metro = d.metro ∧
      req.facility = (if d.facility = "" then [] else [d.facility])) ∧
    (∀ env0 d0, preCreateCheck env0 d0 = .ok d →
      ¬((buildCreateRequest d userdata).facility ≠ [] ∧
        (buildCreateRequest d userdata).metro ≠ "")) := by
  refine ⟨buildCreateRequest_metro d userdata, buildCreateRequest_facility d userdata,
    fun env fuel req hmem => ?_, fun env0 d0 hpre => ?_⟩
  · have hshape : ∃ key u, env.sshKeyCreate = .ok key ∧
        req = buildCreateRequest { d with sshKeyID := key.id } u := by
      unfold create at hmem
      split at hmem
      · split at hmem
        · simp only [List.mem_singleton] at hmem
          cases hmem
        · exact (createAfterUserData_devCreate env fuel d _ _ req (by simp) hmem).imp
            (fun key hk => ⟨_, hk.1, hk.2⟩)
      · exact (createAfterUserData_devCreate env fuel d _ _ req (by simp) hmem).imp
          (fun key hk => ⟨"", hk.1, hk.2⟩)
    obtain ⟨key, u, -, rfl⟩ := hshape
    exact ⟨buildCreateRequest_metro _ u, buildCreateRequest_facility _ u⟩
  · rintro ⟨hfac, hmet⟩
    rw [buildCreateRequest_facility] at hfac
    rw [buildCreateRequest_metro] at hmet
    rcases preCreateCheck_ok_location env0 d0 d hpre with ⟨hf, -⟩ | ⟨-, hm⟩
    · rw [if_pos hf] at hfac
      exact hfac rfl
    · exact hmet hm

/-- C7 witness: a facility-less driver that passed `PreCreateCheck` has
at most one addressing in its request. -/
theorem C7_witness :
    ¬((buildCreateRequest sampleDriver "").facility ≠ [] ∧
      (buildCreateRequest sampleDriver "").metro ≠ "") :=
  (C7_request_addressing sampleDriver "").2.2.2
    { userDataFileNotExist := false
      operatingSystems := .ok [⟨"ubuntu_20_04", "ubuntu"⟩]
      facilities := .ok []
      metros := .ok [⟨"dc"⟩] }
    sampleDriver rfl

/-! ## C2: the two polling loops -/

theorem scanNetwork_mem (network : List IPAddressAssignment) :
    ∀ init : String, scanNetwork init network = init ∨
      ∃ ip ∈ network, ip.public = true ∧ ip.addressFamily = 4 ∧
        ip.address = scanNetwork init network := by
  induction network with
  | nil => exact fun init => Or.inl rfl
  | cons a l ih =>
      intro init
      have hstep : scanNetwork init (a :: l) =
          scanNetwork (if a.public && a.addressFamily == 4 then a.address else init) l :=
        rfl
      by_cases ha : (a.public && a.addressFamily == 4) = true
      · rw [hstep, if_pos ha]
        rcases ih a.address with h | ⟨ip, hip, hp, hf, he⟩
        · exact Or.inr ⟨a, List.mem_cons_self a l,
            ((Bool.and_eq_true _ _).mp ha).1,
            eq_of_beq ((Bool.and_eq_true _ _).mp ha).2, h.symm⟩
        · exact Or.inr ⟨ip, List.mem_cons_of_mem a hip, hp, hf, he⟩
      · rw [hstep, if_neg ha]
        rcases ih init with h | ⟨ip, hip, hp, hf, he⟩
        · exact Or.inl h
        · exact Or.inr ⟨ip, List.mem_cons_of_mem a hip, hp, hf, he⟩

theorem pollIP_broke (get : Nat → Except GoError Device) :
    ∀ (fuel k : Nat), (pollIP get k "" fuel).2.2.1 = .broke →
      (pollIP get k "" fuel).1 ≠ "" ∧
      ∃ j dev, get j = .ok dev ∧
        ∃ ip ∈ dev.network, ip.public = true ∧ ip.addressFamily = 4 ∧
          ip.address = (pollIP get k "" fuel).1 := by
  intro fuel
  induction fuel with
  | zero => intro k h; simp [pollIP] at h
  | succ fuel ih =>
      intro k h
      rcases hg : get k with e | dev
      · simp only [pollIP, hg] at h
        cases h
      · simp only [pollIP, hg] at h ⊢
        by_cases hip : (scanNetwork "" dev.network != "") = true
        · rw [if_pos hip] at h ⊢
          refine ⟨by simpa using hip, k, dev, hg, ?_⟩
          rcases scanNetwork_mem dev.network "" with hs | ⟨ip, hmem, hp, hf, he⟩
          · exact absurd hs (by simpa using hip)
          · exact ⟨ip, hmem, hp, hf, he⟩
        · rw [if_neg hip] at h ⊢
          have hscan : scanNetwork "" dev.network = "" := by simpa using hip
          rw [hscan] at h ⊢
          obtain ⟨h1, j, dev', hj, hrest⟩ := ih (k + 1) h
          exact ⟨h1, j, dev', hj, hrest⟩

theorem pollIP_errExit (get : Nat → Except GoError Device) :
    ∀ (fuel k : Nat) (ip : String) (e : GoError),
      (pollIP get k ip fuel).2.2.1 = .errExit e → ∃ j, get j = .error e := by
  intro fuel
  induction fuel with
  | zero => intro k ip e h; simp [pollIP] at h
  | succ fuel ih =>
      intro k ip e h
      rcases hg : get k with e' | dev
      · simp only [pollIP, hg] at h
        cases h
        exact ⟨k, hg⟩
      · simp only [pollIP, hg] at h
        by_cases hip : (scanNetwork ip dev.network != "") = true
        · rw [if_pos hip] at h
          cases h
        · rw [if_neg hip] at h
          exact ih (k + 1) _ e h

theorem pollIP_noExit (get : Nat → Except GoError Device)
    (hget : ∀ j, ∃ dev, get j = .ok dev ∧ scanNetwork "" dev.network = "") :
    ∀ (fuel k : Nat), (pollIP get k "" fuel).2.2.1 = .fuelOut := by
  intro fuel
  induction fuel with
  | zero => intro k; rfl
  | succ fuel ih =>
      intro k
      obtain ⟨dev, hg, hscan⟩ := hget k
      simp only [pollIP, hg]
      rw [if_neg (by simp [hscan])]
      rw [hscan]
      exact ih (k + 1)

theorem pollActive_broke (get : Nat → Except GoError Device) :
    ∀ (fuel k : Nat), (pollActive get k fuel).2.1 = .broke →
      ∃ j dev, get j = .ok dev ∧ dev.state = "active" := by
  intro fuel
  induction fuel with
  | zero => intro k h; simp [pollActive] at h
  | succ fuel ih =>
      intro k h
      rcases hg : get k with e | dev
      · simp only [pollActive, hg] at h
        cases h
      · simp only [pollActive, hg] at h
        by_cases hs : (dev.state == "active") = true
        · exact ⟨k, dev, hg, eq_of_beq hs⟩
        · rw [if_neg hs] at h
          exact ih (k + 1) h

theorem pollActive_errExit (get : Nat → Except GoError Device) :
    ∀ (fuel k : Nat) (e : GoError),
      (pollActive get k fuel).2.1 = .errExit e → ∃ j, get j = .error e := by
  intro fuel
  induction fuel with
  | zero => intro k e h; simp [pollActive] at h
  | succ fuel ih =>
      intro k e h
      rcases hg : get k with e' | dev
      · simp only [pollActive, hg] at h
        cases h
        exact ⟨k, hg⟩
      · simp only [pollActive, hg] at h
        by_cases hs : (dev.state == "active") = true
        · rw [if_pos hs] at h
          cases h
        · rw [if_neg hs] at h
          exact ih (k + 1) e h

theorem pollActive_noExit (get : Nat → Except GoError Device)
    (hget : ∀ j, ∃ dev, get j = .ok dev ∧ dev.state ≠ "active") :
    ∀ (fuel k : Nat), (pollActive get k fuel).2.1 = .fuelOut := by
  intro fuel
  induction fuel with
  | zero => intro k; rfl
  | succ fuel ih =>
      intro k
      obtain ⟨dev, hg, hstate⟩ := hget k
      simp only [pollActive, hg]
      rw [if_neg (by simp [hstate])]
      exact ih (k + 1)

/-- C2: the first polling loop sleeps exactly 1 second between
re-fetches and exits only when a public address-family-4 network entry
has set the IP address to a non-empty string or when `Devices.Get`
errors; the second loop sleeps exactly 10 seconds and exits only when
the device state is "active" or when `Devices.Get` errors; when the exit
conditions never occur, neither loop ever terminates (it runs out of any
amount of fuel). -/
theorem C2_polling_loops (get : Nat → Except GoError Device) (fuel k : Nat) :
    (∀ ip s, Event.sleep s ∈ (pollIP get k ip fuel).2.2.2 → s = 1) ∧
    ((pollIP get k "" fuel).2.2.1 = .broke →
      (pollIP get k "" fuel).1 ≠ "" ∧
      ∃ j dev, get j = .ok dev ∧
        ∃ ip ∈ dev.network, ip.public = true ∧ ip.addressFamily = 4 ∧
          ip.address = (pollIP get k "" fuel).1) ∧
    (∀ ip e, (pollIP get k ip fuel).2.2.1 = .errExit e → ∃ j, get j = .error e) ∧
    ((∀ j, ∃ dev, get j = .ok dev ∧ scanNetwork "" dev.network = "") →
      (pollIP get k "" fuel).2.2.1 = .fuelOut) ∧
    (∀ s, Event.sleep s ∈ (pollActive get k fuel).2.2 → s = 10) ∧
    ((pollActive get k fuel).2.1 = .broke →
      ∃ j dev, get j = .ok dev ∧ dev.state = "active") ∧
    (∀ e, (pollActive get k fuel).2.1 = .errExit e → ∃ j, get j = .error e) ∧
    ((∀ j, ∃ dev, get j = .ok dev ∧ dev.state ≠ "active") →
      (pollActive get k fuel).2.1 = .fuelOut) := by
  refine ⟨fun ip s hs => ?_, pollIP_broke get fuel k,
    fun ip e => pollIP_errExit get fuel k ip e,
    fun hget => pollIP_noExit get hget fuel k,
    fun s hs => ?_, pollActive_broke get fuel k,
    fun e => pollActive_errExit get fuel k e,
    fun hget => pollActive_noExit get hget fuel k⟩
  · rcases pollIP_trace_events get fuel k ip _ hs with h | h
    · cases h
    · exact (Event.sleep.injEq _ _).mp h
  · rcases pollActive_trace_events get fuel k _ hs with h | h
    · cases h
    · exact (Event.sleep.injEq _ _).mp h

/-- C2 witness: with an active device carrying a public IPv4 address,
the first loop exits with that address recorded. -/
theorem C2_witness :
    (pollIP activeGets 0 "" 1).1 ≠ "" ∧
    ∃ j dev, activeGets j = .ok dev ∧
      ∃ ip ∈ dev.network, ip.public = true ∧ ip.addressFamily = 4 ∧
        ip.address = (pollIP activeGets 0 "" 1).1 :=
  (C2_polling_loops activeGets 1 0).2.1 rfl

/-! ## C8: Create mutates only the result fields -/

theorem createPolling_driver (env : CreateEnv) (fuel : Nat) (d : Driver)
    (tr : List Event) :
    (createPolling env fuel d tr).d =
      { d with ipAddress := (pollIP env.devGets 0 d.ipAddress fuel).1 } := by
  unfold createPolling
  dsimp only
  repeat' (first | rfl | split)

theorem createAfterUserData_keyErr (env : CreateEnv) (fuel : Nat) (d : Driver)
    (userdata : String) (tr : List Event) (e : GoError)
    (hk : env.sshKeyCreate = .error e) :
    createAfterUserData env fuel d userdata tr = ⟨d, .err e, tr ++ [.sshKeyGen]⟩ := by
  unfold createAfterUserData
  rw [hk]

theorem createAfterUserData_cleanup (env : CreateEnv) (fuel : Nat) (d : Driver)
    (userdata : String) (tr : List Event) (key : SSHKey) (e : GoError)
    (hk : env.sshKeyCreate = .ok key) (hd : env.deviceCreate = .error e) :
    createAfterUserData env fuel d userdata tr =
      ⟨{ d with sshKeyID := key.id }, cleanupOutcome env.sshKeyDelete e,
        (tr ++ [.sshKeyGen]) ++
          [.devCreate (buildCreateRequest { d with sshKeyID := key.id } userdata),
           .keyDelete]⟩ := by
  unfold createAfterUserData
  rw [hk, hd]

theorem createAfterUserData_devOk (env : CreateEnv) (fuel : Nat) (d : Driver)
    (userdata : String) (tr : List Event) (key : SSHKey) (dev : Device)
    (hk : env.sshKeyCreate = .ok key) (hd : env.deviceCreate = .ok dev) :
    createAfterUserData env fuel d userdata tr =
      createPolling env fuel { d with sshKeyID := key.id, deviceID := dev.id }
        ((tr ++ [.sshKeyGen]) ++
          [.devCreate (buildCreateRequest { d with sshKeyID := key.id } userdata)]) := by
  unfold createAfterUserData
  rw [hk, hd]

theorem create_eq_afterUserData (env : CreateEnv) (fuel : Nat) (d : Driver)
    (hud : d.userDataFile = "" ∨ ∃ s, env.userDataRead = .ok s) :
    ∃ u tr0,
      ((d.userDataFile = "" ∧ u = "" ∧ tr0 = ([] : List Event)) ∨
        (d.userDataFile ≠ "" ∧ env.userDataRead = .ok u ∧
          tr0 = [Event.readUserDataFile])) ∧
      create env fuel d = createAfterUserData env fuel d u tr0 := by
  by_cases hux : (d.userDataFile != "") = true
  · rcases hud with hud | ⟨s, hs⟩
    · exact absurd hud (by simpa using hux)
    · refine ⟨s, [Event.readUserDataFile], Or.inr ⟨by simpa using hux, hs, rfl⟩, ?_⟩
      unfold create
      rw [if_pos hux, hs]
  · have hud' : d.userDataFile = "" := by simpa using hux
    refine ⟨"", [], Or.inl ⟨hud', rfl, rfl⟩, ?_⟩
    unfold create
    rw [if_neg hux]

theorem createAfterUserData_driver (env : CreateEnv) (fuel : Nat) (d : Driver)
    (userdata : String) (tr : List Event) :
    ∃ sk di ip, (createAfterUserData env fuel d userdata tr).d =
      { d with sshKeyID := sk, deviceID := di, ipAddress := ip } := by
  rcases hk : env.sshKeyCreate with e | key
  · exact ⟨d.sshKeyID, d.deviceID, d.ipAddress,
      by rw [createAfterUserData_keyErr env fuel d userdata tr e hk]⟩
  · rcases hd : env.deviceCreate with e | dev
    · exact ⟨key.id, d.deviceID, d.ipAddress,
        by rw [createAfterUserData_cleanup env fuel d userdata tr key e hk hd]⟩
    · refine ⟨key.id, dev.id, _,
        by rw [createAfterUserData_devOk env fuel d userdata tr key dev hk hd,
          createPolling_driver]⟩

theorem create_driver_shape (env : CreateEnv) (fuel : Nat) (d : Driver) :
    ∃ sk di ip, (create env fuel d).d =
      { d with sshKeyID := sk, deviceID := di, ipAddress := ip } := by
  by_cases hux : (d.userDataFile != "") = true
  · rcases hu : env.userDataRead with e | u
    · refine ⟨d.sshKeyID, d.deviceID, d.ipAddress, ?_⟩
      unfold create
      rw [if_pos hux, hu]
    · obtain ⟨sk, di, ip, hdr⟩ := createAfterUserData_driver env fuel d u
        [Event.readUserDataFile]
      refine ⟨sk, di, ip, ?_⟩
      unfold create
      rw [if_pos hux, hu]
      exact hdr
  · obtain ⟨sk, di, ip, hdr⟩ := createAfterUserData_driver env fuel d "" []
    refine ⟨sk, di, ip, ?_⟩
    unfold create
    rw [if_neg hux]
    exact hdr

/-- C8: every execution of `Create` — successful or not — leaves all of
the driver's configuration fields unchanged; only the result fields
(`SSHKeyID`, `DeviceID`, `IPAddress`) may differ. -/
theorem C8_create_frame (env : CreateEnv) (fuel : Nat) (d : Driver) :
    (create env fuel d).d.apiKey = d.apiKey ∧
    (create env fuel d).d.projectID = d.projectID ∧
    (create env fuel d).d.plan = d.plan ∧
    (create env fuel d).d.hardwareReserverationID = d.hardwareReserverationID ∧
    (create env fuel d).d.facility = d.facility ∧
    (create env fuel d).d.metro = d.metro ∧
    (create env fuel d).d.operatingSystem = d.operatingSystem ∧
    (create env fuel d).d.billingCycle = d.billingCycle ∧
    (create env fuel d).d.userDataFile = d.userDataFile ∧
    (create env fuel d).d.spotInstance = d.spotInstance ∧
    (create env fuel d).d.spotPriceMax = d.spotPriceMax ∧
    (create env fuel d).d.terminationTime = d.terminationTime ∧
    (create env fuel d).d.tags = d.tags ∧
    (create env fuel d).d.userAgentPrefix = d.userAgentPrefix := by
  obtain ⟨sk, di, ip, h⟩ := create_driver_shape env fuel d
  rw [h]
  exact ⟨rfl, rfl, rfl, rfl, rfl, rfl, rfl, rfl, rfl, rfl, rfl, rfl, rfl, rfl⟩

/-! ## C5: SSH-key cleanup on device-create failure -/

theorem create_cleanup (env : CreateEnv) (fuel : Nat) (d : Driver) (e : GoError)
    (hud : d.userDataFile = "" ∨ ∃ s, env.userDataRead = .ok s)
    (hk : ∃ key, env.sshKeyCreate = .ok key)
    (hd : env.deviceCreate = .error e) :
    (create env fuel d).outcome = cleanupOutcome env.sshKeyDelete e := by
  obtain ⟨key, hkey⟩ := hk
  obtain ⟨u, tr0, -, heq⟩ := create_eq_afterUserData env fuel d hud
  rw [heq, createAfterUserData_cleanup env fuel d u tr0 key e hkey hd]

/-- C5 counterexample: with the device-create call failing and the
SSH-key cleanup deletion failing with an HTTP 403 `ErrorResponse`,
`Create` returns the deletion error — the 403 response is not ignored,
contradicting the claim that `Create` then returns the creation
error. -/
theorem C5_counterexample :
    (create cleanup403Env 1 sampleDriver).outcome =
      .err (.errorResponse (some 403)) ∧
    GoError.errorResponse (some 403) ≠ .other "device could not be created" :=
  ⟨rfl, by decide⟩

/-- C5 (amended): when the device-create request fails, `Create` deletes
the SSH key it just registered and ignores only a 404 `ErrorResponse`
from that deletion: it returns the creation error when the key deletion
succeeds or fails with HTTP status 404, and returns the key-deletion
error when the deletion fails with any other error (a 403 response is
returned rather than ignored; a deletion `ErrorResponse` carrying no
HTTP response would crash). -/
theorem C5_cleanup_amended (env : CreateEnv) (fuel : Nat) (d : Driver) (e : GoError)
    (hud : d.userDataFile = "" ∨ ∃ s, env.userDataRead = .ok s)
    (hk : ∃ key, env.sshKeyCreate = .ok key)
    (hd : env.deviceCreate = .error e) :
    ((env.sshKeyDelete = none ∨ env.sshKeyDelete = some (.errorResponse (some 404))) →
      (create env fuel d).outcome = .err e) ∧
    (∀ delErr, env.sshKeyDelete = some delErr →
      delErr ≠ .errorResponse (some 404) → delErr ≠ .errorResponse none →
      (create env fuel d).outcome = .err delErr) := by
  have hmain := create_cleanup env fuel d e hud hk hd
  constructor
  · rintro (h | h) <;> rw [hmain, h] <;> rfl
  · intro delErr hdel h404 hnil
    rw [hmain, hdel]
    rcases delErr with resp | m
    · rcases resp with _ | code
      · exact absurd rfl hnil
      · have hc : code ≠ 404 := fun hc => h404 (by rw [hc])
        simp [cleanupOutcome, bne_iff_ne, hc]
    · rfl

/-- C5 witness: a successful cleanup deletion lets the creation error
through. -/
theorem C5_witness :
    (create cleanupOkEnv 1 sampleDriver).outcome =
      .err (.other "device could not be created") :=
  (C5_cleanup_amended cleanupOkEnv 1 sampleDriver
      (.other "device could not be created")
      (Or.inl rfl) ⟨⟨"key-1"⟩, rfl⟩ rfl).1 (Or.inl rfl)

/-! ## C1: the order of Create's steps -/

theorem createPolling_errExit1 (env : CreateEnv) (fuel : Nat) (d : Driver)
    (tr : List Event) (e : GoError)
    (h : (pollIP env.devGets 0 d.ipAddress fuel).2.2.1 = .errExit e) :
    createPolling env fuel d tr =
      ⟨{ d with ipAddress := (pollIP env.devGets 0 d.ipAddress fuel).1 }, .err e,
        tr ++ (pollIP env.devGets 0 d.ipAddress fuel).2.2.2⟩ := by
  unfold createPolling
  dsimp only
  rw [h]

theorem createPolling_errExit2 (env : CreateEnv) (fuel : Nat) (d : Driver)
    (tr : List Event) (e : GoError)
    (h1 : (pollIP env.devGets 0 d.ipAddress fuel).2.2.1 = .broke)
    (h2 : (pollActive env.devGets (pollIP env.devGets 0 d.ipAddress fuel).2.1
        fuel).2.1 = .errExit e) :
    createPolling env fuel d tr =
      ⟨{ d with ipAddress := (pollIP env.devGets 0 d.ipAddress fuel).1 }, .err e,
        (tr ++ (pollIP env.devGets 0 d.ipAddress fuel).2.2.2) ++
          (pollActive env.devGets (pollIP env.devGets 0 d.ipAddress fuel).2.1
            fuel).2.2⟩ := by
  unfold createPolling
  dsimp only
  rw [h1, h2]

theorem createPolling_sshErr (env : CreateEnv) (fuel : Nat) (d : Driver)
    (tr : List Event) (e : GoError)
    (h1 : (pollIP env.devGets 0 d.ipAddress fuel).2.2.1 = .broke)
    (h2 : (pollActive env.devGets (pollIP env.devGets 0 d.ipAddress fuel).2.1
        fuel).2.1 = .broke)
    (hw : env.waitForSSH = some e) :
    createPolling env fuel d tr =
      ⟨{ d with ipAddress := (pollIP env.devGets 0 d.ipAddress fuel).1 }, .err e,
        ((tr ++ (pollIP env.devGets 0 d.ipAddress fuel).2.2.2) ++
          (pollActive env.devGets (pollIP env.devGets 0 d.ipAddress fuel).2.1
            fuel).2.2) ++ [.waitSSH]⟩ := by
  unfold createPolling
  dsimp only
  rw [h1, h2, hw]

theorem createPolling_ok (env : CreateEnv) (fuel : Nat) (d : Driver)
    (tr : List Event)
    (h1 : (pollIP env.devGets 0 d.ipAddress fuel).2.2.1 = .broke)
    (h2 : (pollActive env.devGets (pollIP env.devGets 0 d.ipAddress fuel).2.1
        fuel).2.1 = .broke)
    (hw : env.waitForSSH = none) :
    createPolling env fuel d tr =
      ⟨{ d with ipAddress := (pollIP env.devGets 0 d.ipAddress fuel).1 }, .ok,
        ((tr ++ (pollIP env.devGets 0 d.ipAddress fuel).2.2.2) ++
          (pollActive env.devGets (pollIP env.devGets 0 d.ipAddress fuel).2.1
            fuel).2.2) ++ [.waitSSH]⟩ := by
  unfold createPolling
  dsimp only
  rw [h1, h2, hw]

/-- C1 counterexample: when the device-create step fails and the cleanup
SSH-key deletion also fails, `Create` returns the deletion error, not
the device-create step's own error, contradicting "if any step returns
an error, Create returns that error". -/
theorem C1_counterexample :
    (create cleanupOtherErrEnv 1 sampleDriver).outcome =
      .err (.other "delete exploded") ∧
    GoError.other "delete exploded" ≠ .other "no capacity" :=
  ⟨rfl, by decide⟩

/-- C1 (amended): `Create` performs its steps in the fixed order —
user-data read (when a path is set), SSH key creation (recording the key
ID), device-create submission (recording the device ID), the IP polling
loop (recording the IP address), the active-state polling loop, then the
SSH wait — and an error in any step stops the run there; the error
returned is that step's own error, except that when the device-create
request fails, the cleanup deletion of the SSH key runs and, if that
deletion itself fails with anything other than a 404 `ErrorResponse`,
its error is returned instead of the creation error. -/
theorem C1_create_order_amended (env : CreateEnv) (fuel : Nat) (d : Driver) :
    (∀ e, d.userDataFile ≠ "" → env.userDataRead = .error e →
      create env fuel d = ⟨d, .err e, [.readUserDataFile]⟩) ∧
    (∀ e, (d.userDataFile = "" ∨ ∃ s, env.userDataRead = .ok s) →
      env.sshKeyCreate = .error e →
      (create env fuel d).outcome = .err e ∧ (create env fuel d).d = d ∧
      ∀ ev ∈ (create env fuel d).trace,
        ev = Event.readUserDataFile ∨ ev = Event.sshKeyGen) ∧
    (∀ key, (d.userDataFile = "" ∨ ∃ s, env.userDataRead = .ok s) →
      env.sshKeyCreate = .ok key → (create env fuel d).d.sshKeyID = key.id) ∧
    (∀ e, (d.userDataFile = "" ∨ ∃ s, env.userDataRead = .ok s) →
      (∃ key, env.sshKeyCreate = .ok key) → env.deviceCreate = .error e →
      Event.devGet ∉ (create env fuel d).trace ∧
      Event.waitSSH ∉ (create env fuel d).trace ∧
      (create env fuel d).outcome = cleanupOutcome env.sshKeyDelete e) ∧
    (∀ key dev, (d.userDataFile = "" ∨ ∃ s, env.userDataRead = .ok s) →
      env.sshKeyCreate = .ok key → env.deviceCreate = .ok dev →
      (create env fuel d).d.deviceID = dev.id ∧
      (create env fuel d).d.ipAddress = (pollIP env.devGets 0 d.ipAddress fuel).1) ∧
    (∀ e, (d.userDataFile = "" ∨ ∃ s, env.userDataRead = .ok s) →
      (∃ key, env.sshKeyCreate = .ok key) → (∃ dev, env.deviceCreate = .ok dev) →
      (pollIP env.devGets 0 d.ipAddress fuel).2.2.1 = .errExit e →
      (create env fuel d).outcome = .err e ∧
      Event.waitSSH ∉ (create env fuel d).trace) ∧
    (∀ e, (d.userDataFile = "" ∨ ∃ s, env.userDataRead = .ok s) →
      (∃ key, env.sshKeyCreate = .ok key) → (∃ dev, env.deviceCreate = .ok dev) →
      (pollIP env.devGets 0 d.ipAddress fuel).2.2.1 = .broke →
      (pollActive env.devGets (pollIP env.devGets 0 d.ipAddress fuel).2.1
        fuel).2.1 = .errExit e →
      (create env fuel d).outcome = .err e ∧
      Event.waitSSH ∉ (create env fuel d).trace) ∧
    (∀ e, (d.userDataFile = "" ∨ ∃ s, env.userDataRead = .ok s) →
      (∃ key, env.sshKeyCreate = .ok key) → (∃ dev, env.deviceCreate = .ok dev) →
      (pollIP env.devGets 0 d.ipAddress fuel).2.2.1 = .broke →
      (pollActive env.devGets (pollIP env.devGets 0 d.ipAddress fuel).2.1
        fuel).2.1 = .broke →
      env.waitForSSH = some e → (create env fuel d).outcome = .err e) ∧
    (∀ key dev, (d.userDataFile = "" ∨ ∃ s, env.userDataRead = .ok s) →
      env.sshKeyCreate = .ok key → env.deviceCreate = .ok dev →
      (pollIP env.devGets 0 d.ipAddress fuel).2.2.1 = .broke →
      (pollActive env.devGets (pollIP env.devGets 0 d.ipAddress fuel).2.1
        fuel).2.1 = .broke →
      env.waitForSSH = none →
      (create env fuel d).outcome = .ok ∧
      ∃ u, (create env fuel d).trace =
        ((if d.userDataFile = "" then ([] : List Event)
          else [Event.readUserDataFile]) ++
          [Event.sshKeyGen,
            Event.devCreate (buildCreateRequest { d with sshKeyID := key.id } u)] ++
          (pollIP env.devGets 0 d.ipAddress fuel).2.2.2 ++
          (pollActive env.devGets (pollIP env.devGets 0 d.ipAddress fuel).2.1
            fuel).2.2) ++ [Event.waitSSH]) := by
  refine ⟨fun e hne herr => ?_, fun e hud hkerr => ?_, fun key hud hkey => ?_,
    fun e hud hk hd => ?_, fun key dev hud hkey hdev => ?_,
    fun e hud hk hdev hp1 => ?_, fun e hud hk hdev hp1 hp2 => ?_,
    fun e hud hk hdev hp1 hp2 hw => ?_, fun key dev hud hkey hdev hp1 hp2 hw => ?_⟩
  · unfold create
    rw [if_pos (by simpa using hne), herr]
  · obtain ⟨u, tr0, htr0, heq⟩ := create_eq_afterUserData env fuel d hud
    rw [heq, createAfterUserData_keyErr env fuel d u tr0 e hkerr]
    refine ⟨rfl, rfl, fun ev hev => ?_⟩
    simp only [List.mem_append, List.mem_singleton] at hev
    rcases hev with hev | hev
    · rcases htr0 with ⟨-, -, rfl⟩ | ⟨-, -, rfl⟩
      · cases hev
      · simp only [List.mem_singleton] at hev
        exact Or.inl hev
    · exact Or.inr hev
  · obtain ⟨u, tr0, -, heq⟩ := create_eq_afterUserData env fuel d hud
    rcases hdev : env.deviceCreate with e | dev
    · rw [heq, createAfterUserData_cleanup env fuel d u tr0 key e hkey hdev]
    · rw [heq, createAfterUserData_devOk env fuel d u tr0 key dev hkey hdev,
        createPolling_driver]
  · obtain ⟨key, hkey⟩ := hk
    obtain ⟨u, tr0, htr0, heq⟩ := create_eq_afterUserData env fuel d hud
    rw [heq, createAfterUserData_cleanup env fuel d u tr0 key e hkey hd]
    have htr0mem : ∀ ev ∈ tr0, ev = Event.readUserDataFile := by
      rcases htr0 with ⟨-, -, rfl⟩ | ⟨-, -, rfl⟩
      · intro ev hev; cases hev
      · intro ev hev
        simp only [List.mem_singleton] at hev
        exact hev
    refine ⟨fun hmem => ?_, fun hmem => ?_, rfl⟩
    · simp only [List.mem_append, List.mem_cons, List.mem_singleton,
        List.not_mem_nil, or_false] at hmem
      rcases hmem with (hmem | hmem) | hmem | hmem
      · cases htr0mem _ hmem
      · cases hmem
      · cases hmem
      · cases hmem
    · simp only [List.mem_append, List.mem_cons, List.mem_singleton,
        List.not_mem_nil, or_false] at hmem
      rcases hmem with (hmem | hmem) | hmem | hmem
      · cases htr0mem _ hmem
      · cases hmem
      · cases hmem
      · cases hmem
  · obtain ⟨u, tr0, -, heq⟩ := create_eq_afterUserData env fuel d hud
    rw [heq, createAfterUserData_devOk env fuel d u tr0 key dev hkey hdev,
      createPolling_driver]
    exact ⟨rfl, rfl⟩
  · obtain ⟨key, hkey⟩ := hk
    obtain ⟨dev, hdev'⟩ := hdev
    obtain ⟨u, tr0, htr0, heq⟩ := create_eq_afterUserData env fuel d hud
    rw [heq, createAfterUserData_devOk env fuel d u tr0 key dev hkey hdev',
      createPolling_errExit1 env fuel
        { d with sshKeyID := key.id, deviceID := dev.id } _ e hp1]
    refine ⟨rfl, fun hmem => ?_⟩
    simp only [List.mem_append, List.mem_cons, List.mem_singleton,
      List.not_mem_nil, or_false] at hmem
    rcases hmem with ((hmem | hmem) | hmem) | hmem
    · rcases htr0 with ⟨-, -, rfl⟩ | ⟨-, -, rfl⟩
      · cases hmem
      · simp only [List.mem_singleton] at hmem
        cases hmem
    · cases hmem
    · cases hmem
    · rcases pollIP_trace_events env.devGets _ _ _ _ hmem with h | h <;> cases h
  · obtain ⟨key, hkey⟩ := hk
    obtain ⟨dev, hdev'⟩ := hdev
    obtain ⟨u, tr0, htr0, heq⟩ := create_eq_afterUserData env fuel d hud
    rw [heq, createAfterUserData_devOk env fuel d u tr0 key dev hkey hdev',
      createPolling_errExit2 env fuel
        { d with sshKeyID := key.id, deviceID := dev.id } _ e hp1 hp2]
    refine ⟨rfl, fun hmem => ?_⟩
    simp only [List.mem_append, List.mem_cons, List.mem_singleton,
      List.not_mem_nil, or_false] at hmem
    rcases hmem with (((hmem | hmem) | hmem) | hmem) | hmem
    · rcases htr0 with ⟨-, -, rfl⟩ | ⟨-, -, rfl⟩
      · cases hmem
      · simp only [List.mem_singleton] at hmem
        cases hmem
    · cases hmem
    · cases hmem
    · rcases pollIP_trace_events env.devGets _ _ _ _ hmem with h | h <;> cases h
    · rcases pollActive_trace_events env.devGets _ _ _ hmem with h | h <;> cases h
  · obtain ⟨key, hkey⟩ := hk
    obtain ⟨dev, hdev'⟩ := hdev
    obtain ⟨u, tr0, -, heq⟩ := create_eq_afterUserData env fuel d hud
    rw [heq, createAfterUserData_devOk env fuel d u tr0 key dev hkey hdev',
      createPolling_sshErr env fuel
        { d with sshKeyID := key.id, deviceID := dev.id } _ e hp1 hp2 hw]
  · obtain ⟨u, tr0, htr0, heq⟩ := create_eq_afterUserData env fuel d hud
    rw [heq, createAfterUserData_devOk env fuel d u tr0 key dev hkey hdev,
      createPolling_ok env fuel
        { d with sshKeyID := key.id, deviceID := dev.id } _ hp1 hp2 hw]
    refine ⟨rfl, u, ?_⟩
    rcases htr0 with ⟨hfile, -, rfl⟩ | ⟨hfile, -, rfl⟩
    · rw [if_pos hfile]
      simp [List.append_assoc]
    · rw [if_neg hfile]
      simp [List.append_assoc]

/-- C1 witness: with every external call succeeding, `Create` returns
nil. -/
theorem C1_witness :
    (create happyEnv 1 sampleDriver).outcome = .ok :=
  ((C1_create_order_amended happyEnv 1 sampleDriver).2.2.2.2.2.2.2.2 ⟨"key-1"⟩
    ⟨"device-1", "provisioning", []⟩ (Or.inl rfl) rfl rfl rfl rfl rfl).1

/-! ## C9: SetConfigFromFlags -/

theorem applySpotFlags_shape (env : FlagsEnv) (flags : Flags) (d d' : Driver)
    (h : applySpotFlags env flags d = .ok d') :
    ∃ sp tt, d' = { d with spotPriceMax := sp, terminationTime := tt } := by
  unfold applySpotFlags at h
  split at h
  · split at h
    · cases h
    · rename_i dmid heq
      have hmid : ∃ sp, dmid = { d with spotPriceMax := sp } := by
        split at heq
        · cases heq
          exact ⟨-1, rfl⟩
        · split at heq
          · cases heq
          · cases heq
            exact ⟨_, rfl⟩
      obtain ⟨sp, rfl⟩ := hmid
      split at h
      · cases h
        exact ⟨sp, none, rfl⟩
      · split at h
        · cases h
        · split at h
          · cases h
          · cases h
            exact ⟨sp, some _, rfl⟩
  · cases h
    exact ⟨d.spotPriceMax, d.terminationTime, rfl⟩

/-- C9: in `SetConfigFromFlags`, a command-line value for os, api-key,
project-id, metro-code, facility-code or plan overrides the config-file
value exactly when the flag string is non-empty; within the config file
a non-empty "token" entry takes precedence over "auth-token" for the API
key; a missing config file is not an error (and leaves the driver
unchanged); and a successful `SetConfigFromFlags` implies the resulting
ApiKey and ProjectID are non-empty (an empty result is rejected with an
error). -/
theorem C9_setConfigFromFlags (env : FlagsEnv) (flags : Flags) (d : Driver) :
    setConfigFromFile .missing d = .ok d ∧
    (∀ config d0, setConfigFromFile (.parsed config) d0 =
      .ok { d0 with
              plan := config.plan
              apiKey := (if config.token = "" then config.authToken else config.token)
              facility := config.facility
              metro := config.metro
              operatingSystem := config.os
              projectID := config.projectID }) ∧
    (∀ dFile d', setConfigFromFile env.file d = .ok dFile →
      setConfigFromFlags env flags d = .ok d' →
      d'.operatingSystem =
        (if flags.os = "" then dFile.operatingSystem else flags.os) ∧
      d'.apiKey = (if flags.apiKey = "" then dFile.apiKey else flags.apiKey) ∧
      d'.projectID =
        (if flags.projectId = "" then dFile.projectID else flags.projectId) ∧
      d'.metro = (if flags.metroCode = "" then dFile.metro else flags.metroCode) ∧
      d'.facility =
        (if flags.facilityCode = "" then dFile.facility else flags.facilityCode) ∧
      d'.plan = (if flags.plan = "" then dFile.plan else flags.plan)) ∧
    (∀ d', setConfigFromFlags env flags d = .ok d' →
      d'.apiKey ≠ "" ∧ d'.projectID ≠ "") := by
  refine ⟨rfl, fun config d0 => ?_, fun dFile d' hFile hFlags => ?_,
    fun d' h => ?_⟩
  · by_cases ht : config.token = "" <;>
      simp [setConfigFromFile, ht]
  · unfold setConfigFromFlags at hFlags
    rw [hFile] at hFlags
    dsimp only at hFlags
    split at hFlags
    · cases hFlags
    · rename_i dS hS
      split at hFlags
      · cases hFlags
      · split at hFlags
        · cases hFlags
        · obtain ⟨sp, tt, rfl⟩ := applySpotFlags_shape env flags _ dS hS
          cases hFlags
          refine ⟨?_, ?_, ?_, ?_, ?_, ?_⟩ <;>
            [by_cases hf : flags.os = ""; by_cases hf : flags.apiKey = "";
             by_cases hf : flags.projectId = ""; by_cases hf : flags.metroCode = "";
             by_cases hf : flags.facilityCode = ""; by_cases hf : flags.plan = ""] <;>
            simp [hf, apply_ite (fun x : Driver => x.operatingSystem),
              apply_ite (fun x : Driver => x.apiKey),
              apply_ite (fun x : Driver => x.projectID),
              apply_ite (fun x : Driver => x.metro),
              apply_ite (fun x : Driver => x.facility),
              apply_ite (fun x : Driver => x.plan)]
  · unfold setConfigFromFlags at h
    split at h
    · cases h
    · dsimp only at h
      split at h
      · cases h
      · split at h
        · cases h
        · split at h
          · cases h
          · cases h
            rename_i hapi hproj
            exact ⟨by simpa using hapi, by simpa using hproj⟩

/-- C9 witness: with no config file and only the api-key and project-id
flags set, configuration succeeds and the flag values land in the
driver. -/
theorem C9_witness :
    setConfigFromFlags flagsEnvW flagsW sampleDriver =
      .ok { sampleDriver with apiKey := "APIKEY", projectID := "PROJECT" } ∧
    ({ sampleDriver with apiKey := "APIKEY", projectID := "PROJECT" } : Driver).apiKey
      ≠ "" := by
  have h : setConfigFromFlags flagsEnvW flagsW sampleDriver =
      .ok { sampleDriver with apiKey := "APIKEY", projectID := "PROJECT" } := rfl
  exact ⟨h,
    ((C9_setConfigFromFlags flagsEnvW flagsW sampleDriver).2.2.2 _ h).1⟩

end Metal
